import Mathlib

/-!
Verification development for the google-map-scrapper repository.

The definitions below are a shallow embedding of the extraction and
navigation core: summary-card field extraction and name-based
deduplication (src/scraper.js), the scroll driver (src/scraper.js lines
269 to 401), the fingerprint session setup and per-document override
script (src/scraper.js lines 66 to 186), the detail extractor
extractBusinessDetails with its four phone strategies and the merge step
(the detailExtractor module, src/unnamed/part_002 lines 416 to 963), and
the per-record orchestrator loop with its sink callback
(src/scraper.js lines 530 to 579).

DOM and network effects are modelled as explicit inputs: the text an
element resolves to, whether a navigation throws, the result count a
scroll check observes.  JS strings are Lean strings handled through
their character lists; JS regular expressions used by the code are
implemented as character-list scanners with leftmost greedy semantics.
-/

namespace GMScrap

/-- Whitespace test modelling the regex class backslash-s and the
characters removed by JS String.prototype.trim. -/
def isJsWs (c : Char) : Bool := c = ' ' || c = '\t' || c = '\n' || c = '\r'

/-- Model of JS String.prototype.trim on a character list: whitespace is
dropped from both ends. -/
def trimChars (l : List Char) : List Char :=
  ((l.dropWhile isJsWs).reverse.dropWhile isJsWs).reverse

/-- Model of JS String.prototype.trim. -/
def jsTrim (s : String) : String := String.mk (trimChars s.data)

/-- Decides whether needle occurs as a contiguous run inside hay,
modelling JS String.prototype.includes. -/
def containsSub (needle : List Char) : List Char → Bool
  | [] => needle.isEmpty
  | c :: rest => needle.isPrefixOf (c :: rest) || containsSub needle rest

/-- Model of JS hay.includes(needle). -/
def strIncludes (hay needle : String) : Bool := containsSub needle.data hay.data

/-- Model of JS s.startsWith(pat). -/
def strStartsWith (s pat : String) : Bool := pat.data.isPrefixOf s.data

/-- Model of JS s.toLowerCase (ASCII as used by the source). -/
def jsToLower (s : String) : String := String.mk (s.data.map Char.toLower)

/-- Removes the first occurrence of pat, modelling the JS call
s.replace(pat, empty string) with a plain string pattern. -/
def removeFirstChars (pat : List Char) : List Char → List Char
  | [] => []
  | c :: rest =>
    if pat.isPrefixOf (c :: rest) then (c :: rest).drop pat.length
    else c :: removeFirstChars pat rest

/-- Model of JS s.replace(pat, empty string). -/
def removeFirst (pat s : String) : String := String.mk (removeFirstChars pat.data s.data)

/-- Digit-only length of a string, modelling
phone.replace(non-digit, empty).length in the source. -/
def digitCount (s : String) : Nat := (s.data.filter Char.isDigit).length

/-- JS truthiness of an optional string: null and the empty string are
falsy, every other string is truthy. -/
def jsTruthy : Option String → Bool
  | some s => !(s == "")
  | none => false

/-- Leftmost greedy match of a regex of the shape class-repeated-minLen-or-more:
scanning positions left to right, the maximal run of class characters
starting at the position is the candidate; the first candidate of length
at least minLen is the match, exactly as the JS regex engine behaves for
a pattern that is a single counted character class. -/
def firstRun (cls : Char → Bool) (minLen : Nat) : List Char → Option (List Char)
  | [] => none
  | c :: rest =>
    let run := (c :: rest).takeWhile cls
    if minLen ≤ run.length then some run else firstRun cls minLen rest

/-- String wrapper for firstRun. -/
def firstRunStr (cls : Char → Bool) (minLen : Nat) (s : String) : Option String :=
  (firstRun cls minLen s.data).map String.mk

/-- Character class of the summary phone pattern: digit, whitespace,
dash, parentheses (scraper.js line 480). -/
def sumPhoneCls (c : Char) : Bool :=
  c.isDigit || isJsWs c || c = '-' || c = '(' || c = ')'

/-- Character class of the detail phone pattern: digit, whitespace,
plus, dash, parentheses (detailExtractor strategies 1 and 2). -/
def detPhoneCls (c : Char) : Bool :=
  c.isDigit || isJsWs c || c = '+' || c = '-' || c = '(' || c = ')'

/-- Leftmost greedy match of the summary phone regex: one digit followed
by one or more characters of the class digit, whitespace, dash,
parentheses (scraper.js line 480). -/
def summaryPhoneMatch : List Char → Option (List Char)
  | [] => none
  | c :: rest =>
    if c.isDigit && (match rest.head? with | some r => sumPhoneCls r | none => false) then
      some (c :: rest.takeWhile sumPhoneCls)
    else summaryPhoneMatch rest

/-- Summary-card phone extraction (scraper.js lines 477 to 480): the
aria-label of the resolved phone element is matched against the digit
pattern and the whole match is taken.  No digit-count validation is
applied on this path. -/
def extractSummaryPhone (ariaLabel : Option String) : Option String :=
  match ariaLabel with
  | none => none
  | some s => (summaryPhoneMatch s.data).map String.mk

/-- Summary-card website extraction (scraper.js lines 482 to 490): the
href of the resolved link element is taken (empty string collapses to
null through the or-null idiom) and then nulled when it contains either
Google Maps substring. -/
def extractSummaryWebsite (href : Option String) : Option String :=
  match href with
  | none => none
  | some h =>
    if h == "" then none
    else if strIncludes h "google.com/maps" || strIncludes h "maps.google.com" then none
    else some h

/-- Business record as built by the summary extraction (scraper.js lines
500 to 509) and extended by the detail merge; fields the summary never
carries default to none. -/
structure Business where
  name : String
  rating : Option Rat := none
  reviewCount : Option Nat := none
  address : Option String := none
  phone : Option String := none
  website : Option String := none
  placeId : Option String := none
  placeUrl : Option String := none
  hours : Option String := none
  category : Option String := none
  description : Option String := none
deriving DecidableEq, Repr

/-- Convenience constructor for a record that only carries a name. -/
def mkBiz (n : String) : Business := { name := n }

/-- Worker for dedupByName; seen holds the names of records already
kept, so a record survives exactly when no earlier record had its name. -/
def dedupGo : List Business → List String → List Business
  | [], _ => []
  | b :: rest, seen =>
    if b.name ∈ seen then dedupGo rest seen
    else b :: dedupGo rest (b.name :: seen)

/-- Duplicate removal by exact name (scraper.js lines 519 to 522): the
filter keeps a record exactly when findIndex of its name is its own
index, that is, exactly the first record of every name. -/
def dedupByName (l : List Business) : List Business := dedupGo l []

/-- Outcome of the scroll loop: the final value of the scrollAttempts
counter, the last observed result count, and whether the loop exited
through the two-consecutive-no-change break rather than the cap. -/
structure ScrollResult where
  attempts : Nat
  finalCount : Nat
  stoppedByStability : Bool
deriving DecidableEq, Repr

/-- Hard cap of the scroll loop (scraper.js line 272). -/
def maxScrollAttempts : Nat := 100

/-- Scroll loop of scraper.js lines 275 to 401.  counts gives the result
count observed by the i-th count check; prev is previousCount, noChange
is noChangeCount and attempts is scrollAttempts.  On an unchanged count
noChangeCount is incremented and the loop breaks once it reaches 2; on a
changed count it resets to 0; previousCount is then set, the nudge
actions run, and scrollAttempts is incremented. -/
def scrollGo (counts : Nat → Nat) (i prev noChange attempts : Nat) : ScrollResult :=
  if h : attempts < maxScrollAttempts then
    let current := counts i
    if current = prev then
      if noChange + 1 ≥ 2 then ⟨attempts, current, true⟩
      else scrollGo counts (i + 1) current (noChange + 1) (attempts + 1)
    else scrollGo counts (i + 1) current 0 (attempts + 1)
  else ⟨attempts, prev, false⟩
termination_by maxScrollAttempts - attempts
decreasing_by
  all_goals simp only [maxScrollAttempts] at *
  all_goals omega

/-- Entry point of the scroll loop with the initial state of
scraper.js lines 269 to 274. -/
def scrollLoop (counts : Nat → Nat) : ScrollResult := scrollGo counts 0 0 0 0

/-- Fixed user-agent catalog of getRandomUserAgent (scraper.js lines 9 to 43). -/
def userAgents : List String := [
  "Mozilla/5.0 (Windows NT 10.0; Win64; x64) AppleWebKit/537.36 (KHTML, like Gecko) Chrome/120.0.0.0 Safari/537.36",
  "Mozilla/5.0 (Windows NT 10.0; Win64; x64) AppleWebKit/537.36 (KHTML, like Gecko) Chrome/119.0.0.0 Safari/537.36",
  "Mozilla/5.0 (Windows NT 10.0; Win64; x64) AppleWebKit/537.36 (KHTML, like Gecko) Chrome/121.0.0.0 Safari/537.36",
  "Mozilla/5.0 (Windows NT 11.0; Win64; x64) AppleWebKit/537.36 (KHTML, like Gecko) Chrome/120.0.0.0 Safari/537.36",
  "Mozilla/5.0 (Macintosh; Intel Mac OS X 10_15_7) AppleWebKit/537.36 (KHTML, like Gecko) Chrome/120.0.0.0 Safari/537.36",
  "Mozilla/5.0 (Macintosh; Intel Mac OS X 10_15_7) AppleWebKit/537.36 (KHTML, like Gecko) Chrome/119.0.0.0 Safari/537.36",
  "Mozilla/5.0 (Macintosh; Intel Mac OS X 13_6_1) AppleWebKit/537.36 (KHTML, like Gecko) Chrome/120.0.0.0 Safari/537.36",
  "Mozilla/5.0 (Windows NT 10.0; Win64; x64; rv:121.0) Gecko/20100101 Firefox/121.0",
  "Mozilla/5.0 (Windows NT 10.0; Win64; x64; rv:120.0) Gecko/20100101 Firefox/120.0",
  "Mozilla/5.0 (Macintosh; Intel Mac OS X 10.15; rv:121.0) Gecko/20100101 Firefox/121.0",
  "Mozilla/5.0 (Macintosh; Intel Mac OS X 10.15; rv:120.0) Gecko/20100101 Firefox/120.0",
  "Mozilla/5.0 (Macintosh; Intel Mac OS X 10_15_7) AppleWebKit/605.1.15 (KHTML, like Gecko) Version/17.1 Safari/605.1.15",
  "Mozilla/5.0 (Macintosh; Intel Mac OS X 10_15_7) AppleWebKit/605.1.15 (KHTML, like Gecko) Version/17.0 Safari/605.1.15",
  "Mozilla/5.0 (Windows NT 10.0; Win64; x64) AppleWebKit/537.36 (KHTML, like Gecko) Chrome/120.0.0.0 Safari/537.36 Edg/120.0.0.0",
  "Mozilla/5.0 (Windows NT 10.0; Win64; x64) AppleWebKit/537.36 (KHTML, like Gecko) Chrome/119.0.0.0 Safari/537.36 Edg/119.0.0.0",
  "Mozilla/5.0 (X11; Linux x86_64) AppleWebKit/537.36 (KHTML, like Gecko) Chrome/120.0.0.0 Safari/537.36"]

/-- Viewport dimensions. -/
structure Viewport where
  width : Nat
  height : Nat
deriving DecidableEq, Repr

/-- Fixed viewport catalog of getRandomViewport (scraper.js lines 49 to 60). -/
def viewports : List Viewport :=
  [⟨1920, 1080⟩, ⟨1366, 768⟩, ⟨1536, 864⟩, ⟨1440, 900⟩, ⟨1280, 720⟩, ⟨1600, 900⟩]

/-- Values chosen once per scrape session by setupFingerprintAvoidance
(scraper.js lines 66 to 74): one user agent and one viewport. -/
structure SessionConfig where
  userAgent : String
  viewport : Viewport
deriving DecidableEq, Repr

/-- Session setup (scraper.js lines 66 to 74).  The random draw
Math.floor(Math.random() * n) over a catalog of size n is modelled as an
arbitrary natural taken modulo n. -/
def setupSession (r1 r2 : Nat) : SessionConfig :=
  { userAgent := userAgents.getD (r1 % userAgents.length) ""
  , viewport := viewports.getD (r2 % viewports.length) ⟨0, 0⟩ }

/-- Timezone catalog of the new-document script (scraper.js line 144). -/
def timezones : List String :=
  ["America/New_York", "America/Los_Angeles", "America/Chicago", "Europe/London", "Asia/Karachi"]

/-- Offsets object of the patched getTimezoneOffset (scraper.js lines
147 to 154), including the or-zero fallback. -/
def tzOffset (tz : String) : Int :=
  if tz = "America/New_York" then 300
  else if tz = "America/Los_Angeles" then 480
  else if tz = "America/Chicago" then 360
  else if tz = "Europe/London" then 0
  else if tz = "Asia/Karachi" then -300
  else 0

/-- Platform override derived from the user agent (scraper.js lines 84 to 91). -/
def platformOf (ua : String) : String :=
  if strIncludes ua "Windows" then "Win32"
  else if strIncludes ua "Mac" then "MacIntel"
  else if strIncludes ua "Linux" then "Linux x86_64"
  else "Win32"

/-- Fingerprint components a loaded document observes. -/
structure PageIdentity where
  userAgent : String
  platform : String
  viewport : Viewport
  timezone : String
  timezoneOffset : Int
deriving DecidableEq, Repr

/-- Identity observed by one new document.  The evaluateOnNewDocument
script (scraper.js lines 77 to 182) reruns on every navigation: the user
agent and viewport are the serialized session values and never change,
but the timezone is drawn from Math.random again on every run (lines 143
to 155); r is the fresh random draw of that run. -/
def newDocumentIdentity (cfg : SessionConfig) (r : Nat) : PageIdentity :=
  let tz := timezones.getD (r % timezones.length) ""
  { userAgent := cfg.userAgent
  , platform := platformOf cfg.userAgent
  , viewport := cfg.viewport
  , timezone := tz
  , timezoneOffset := tzOffset tz }

/-- Contact-info element of the detail panel (an Io6YTe fontBodyMedium
node): its text content and the href of a contained tel link, if any. -/
structure ContactElem where
  text : String
  telHref : Option String
deriving DecidableEq, Repr

/-- Resolved content of a rendered detail page, as consumed by the
page.evaluate body of extractBusinessDetails.  Each field is the value
the corresponding DOM query resolves to: phoneButtonText is the first
non-null of aria-label, text, href and title of the Phone control;
telHrefs are the tel link targets inside the main panel; panelMatches1
and panelMatches2 are the match lists of the two strategy-4 free-text
patterns over the panel text; websiteCandidate is the value the four
website strategies left in details.website before the in-page final
validation; addressTexts are the texts of the elements found by the
address selector list, in selector order. -/
structure DetailPage where
  phoneButtonText : Option String := none
  contactElems : List ContactElem := []
  telHrefs : List String := []
  panelMatches1 : List String := []
  panelMatches2 : List String := []
  websiteCandidate : Option String := none
  addressTexts : List String := []
  hoursText : Option String := none
  categoryText : Option String := none
  panelName : Option String := none
deriving Repr

/-- Phone strategy 1 (detailExtractor lines 527 to 547): the Phone
control text, stripped of a tel prefix, matched against the counted
class pattern; the match is trimmed and stored with no digit-count
validation. -/
def phoneStrategy1 (phoneText : Option String) : Option String :=
  match phoneText with
  | none => none
  | some t =>
    if t == "" then none
    else
      let t2 := if strStartsWith t "tel:" then jsTrim (removeFirst "tel:" t) else t
      (firstRunStr detPhoneCls 7 t2).map jsTrim

/-- Candidate handling shared by the body of strategy 2 (detailExtractor
lines 566 to 581): a falsy text yields nothing; otherwise the text,
stripped of a tel prefix, is matched against the counted class pattern
and the trimmed match is accepted only when its digit count is between 7
and 15. -/
def strategy2Text (phoneText : String) : Option String :=
  if phoneText == "" then none
  else
    match firstRunStr detPhoneCls 7
        (if strStartsWith phoneText "tel:" then jsTrim (removeFirst "tel:" phoneText)
         else phoneText) with
    | some m =>
      if 7 ≤ digitCount (jsTrim m) ∧ digitCount (jsTrim m) ≤ 15 then some (jsTrim m) else none
    | none => none

/-- Phone candidate of one contact-info element under strategy 2
(detailExtractor lines 556 to 583): the element must mention phone or
call or contain a tel link; the candidate text is the tel href when
present, the element text otherwise. -/
def strategy2Elem (e : ContactElem) : Option String :=
  if strIncludes (jsToLower e.text) "phone" || strIncludes (jsToLower e.text) "call"
      || e.telHref.isSome then
    strategy2Text (match e.telHref with | some h => h | none => e.text)
  else none

/-- Phone strategy 2: first contact-info element yielding a validated
candidate wins. -/
def phoneStrategy2 : List ContactElem → Option String
  | [] => none
  | e :: rest =>
    match strategy2Elem e with
    | some p => some p
    | none => phoneStrategy2 rest

/-- Phone candidate of one tel link under strategy 3 (detailExtractor
lines 593 to 605): the href with the tel prefix removed and trimmed,
accepted only when at least 7 characters long with a digit count between
7 and 15. -/
def strategy3Elem (href : String) : Option String :=
  if href == "" then none
  else
    if 7 ≤ (jsTrim (removeFirst "tel:" href)).length ∧
        7 ≤ digitCount (jsTrim (removeFirst "tel:" href)) ∧
        digitCount (jsTrim (removeFirst "tel:" href)) ≤ 15 then
      some (jsTrim (removeFirst "tel:" href))
    else none

/-- Phone strategy 3: first tel link yielding a validated candidate wins. -/
def phoneStrategy3 : List String → Option String
  | [] => none
  | h :: rest =>
    match strategy3Elem h with
    | some p => some p
    | none => phoneStrategy3 rest

/-- Find step of strategy 4 (detailExtractor lines 620 to 633): the
first regex match whose digit count is between 7 and 15. -/
def strategy4Find (ms : List String) : Option String :=
  ms.find? (fun m => decide (7 ≤ digitCount m) && decide (digitCount m ≤ 15))

/-- Phone strategy 4: the two free-text patterns are tried in order;
the first pattern whose match list contains a valid candidate assigns
that candidate trimmed. -/
def phoneStrategy4 (ms1 ms2 : List String) : Option String :=
  match strategy4Find ms1 with
  | some v => some (jsTrim v)
  | none =>
    match strategy4Find ms2 with
    | some v => some (jsTrim v)
    | none => none

/-- Sequencing of the strategies: each later strategy only runs while
details.phone is still falsy, and only overwrites it on success. -/
def updIfFalsy (cur cand : Option String) : Option String :=
  if jsTruthy cur then cur
  else match cand with | some v => some v | none => cur

/-- Detail-page phone extraction: the four ordered strategies of the
page.evaluate body, lines 525 to 635 of the detailExtractor. -/
def extractDetailPhone (pg : DetailPage) : Option String :=
  let p1 := phoneStrategy1 pg.phoneButtonText
  let p2 := updIfFalsy p1 (phoneStrategy2 pg.contactElems)
  let p3 := updIfFalsy p2 (phoneStrategy3 pg.telHrefs)
  updIfFalsy p3 (phoneStrategy4 pg.panelMatches1 pg.panelMatches2)

/-- Address extraction (detailExtractor lines 762 to 780): the first
selector whose element text is non-empty and longer than 10 characters
wins, trimmed. -/
def extractAddress : List String → Option String
  | [] => none
  | t :: rest => if t ≠ "" ∧ 10 < t.length then some (jsTrim t) else extractAddress rest

/-- Final validation inside the page.evaluate body (detailExtractor
lines 753 to 759): a website still matching the map host or the search
host is nulled. -/
def evalWebsiteGuard (o : Option String) : Option String :=
  match o with
  | some w =>
    if strIncludes w "google.com/maps" || strIncludes w "maps.google.com"
        || strIncludes w "google.com/search" then none
    else some w
  | none => none

/-- Field set produced by the page.evaluate body of
extractBusinessDetails (detailExtractor lines 490 to 799). -/
structure DetailedInfo where
  phone : Option String
  website : Option String
  address : Option String
  hours : Option String
  category : Option String
  description : Option String
  verifiedBusinessName : Option String
deriving Repr

/-- The page.evaluate body: phone through the four strategies, website
as left by the website strategies then guarded, address through the
selector list, hours and category as single lookups, and description
never assigned anywhere in the body, hence always null. -/
def evalDetails (pg : DetailPage) : DetailedInfo :=
  { phone := extractDetailPhone pg
  , website := evalWebsiteGuard pg.websiteCandidate
  , address := extractAddress pg.addressTexts
  , hours := pg.hoursText
  , category := pg.categoryText.map jsTrim
  , description := none
  , verifiedBusinessName := pg.panelName }

/-- Truthy-and-not-map-host filter applied to each website source before
the merge (detailExtractor lines 815 to 823). -/
def cleanWebsite (o : Option String) : Option String :=
  match o with
  | some w =>
    if !(w == "") && !(strIncludes w "google.com/maps") && !(strIncludes w "maps.google.com") then
      some w
    else none
  | none => none

/-- Final website check of the merge (detailExtractor lines 842 to 845):
a selected value still matching the map host is nulled. -/
def websiteFinalGuard (o : Option String) : Option String :=
  match o with
  | some w =>
    if strIncludes w "google.com/maps" || strIncludes w "maps.google.com" then none
    else some w
  | none => none

/-- Merge of the detail-page fields into the summary record
(detailExtractor lines 809 to 870): website prefers the cleaned detail
value then the cleaned original, then passes the final guard; phone
prefers the detail value then the original; address prefers the detail
value; hours, category and description come from the detail page only;
every other field is spread from the original record unchanged. -/
def mergeDetails (b : Business) (info : DetailedInfo) : Business :=
  let detailWebsite := cleanWebsite info.website
  let originalWebsite := cleanWebsite b.website
  let finalWebsite0 :=
    if jsTruthy detailWebsite then detailWebsite
    else if jsTruthy originalWebsite then originalWebsite
    else none
  let finalWebsite := websiteFinalGuard finalWebsite0
  let finalPhone :=
    if jsTruthy info.phone then info.phone
    else if jsTruthy b.phone then b.phone
    else none
  { b with
    phone := finalPhone
    website := finalWebsite
    address := if jsTruthy info.address then info.address else b.address
    hours := info.hours
    category := info.category
    description := info.description }

/-- Effects the environment inflicts on one enrichment call: whether the
goto of placeUrl throws (failure or timeout), whether any later awaited
operation throws before the merged record is returned (absorbed by the
outer catch), and the rendered detail page otherwise. -/
structure DetailEnv where
  navFails : Bool
  outerFault : Bool
  pg : DetailPage

/-- The enrichment function extractBusinessDetails (detailExtractor
lines 422 to 963).  The whole body sits in a try-catch whose catch
returns the input record, so the function is total; a falsy placeUrl
returns the input unchanged; a goto failure is caught by the inner catch
of lines 462 to 466 and returns the input unchanged; otherwise the
evaluate runs and the merge is returned.  The title comparison and the
navigate-back step only log and never change the returned record. -/
def extractBusinessDetails (env : DetailEnv) (b : Business) : Business :=
  if jsTruthy b.placeUrl then
    if env.navFails then b
    else if env.outerFault then b
    else mergeDetails b (evalDetails env.pg)
  else b

/-- Environment whose goto always fails. -/
def navFailEnv : DetailEnv := { navFails := true, outerFault := false, pg := {} }

/-- Environment with a successful navigation onto an empty detail page. -/
def okEnv : DetailEnv := { navFails := false, outerFault := false, pg := {} }

/-- Per-record orchestrator loop (scraper.js lines 530 to 579) with the
sink callback onBusinessExtracted modelled by cb, where cb r = true
means the invocation on record r throws.  The try block pushes the
enriched record and invokes the callback; a throw is caught by the
per-record catch, which pushes the original record and invokes the
callback again without any protection, so a second throw escapes the
loop and the whole scrape rejects: that outcome is Except.error carrying
the records accumulated before the abort, which the caller never
receives. -/
def runSinkLoop (enrichF : Business → Business) (cb : Business → Bool) :
    List Business → Except (List Business) (List Business)
  | [] => .ok []
  | b :: rest =>
    let detailed := enrichF b
    if cb detailed then
      if cb b then .error [detailed, b]
      else
        match runSinkLoop enrichF cb rest with
        | .ok l => .ok (detailed :: b :: l)
        | .error l => .error (detailed :: b :: l)
    else
      match runSinkLoop enrichF cb rest with
      | .ok l => .ok (detailed :: l)
      | .error l => .error (detailed :: l)

/-- Record list the loop accumulates when no catch-path callback
invocation throws: the enriched record, followed by the original record
whenever the first callback invocation threw. -/
def sinkExpected (enrichF : Business → Business) (cb : Business → Bool) :
    List Business → List Business
  | [] => []
  | b :: rest =>
    (if cb (enrichF b) then [enrichF b, b] else [enrichF b]) ++ sinkExpected enrichF cb rest

/-- Invariant of claim C5: the website value avoids both spellings of
the map host. -/
def websiteOk (w : String) : Bool :=
  !(strIncludes w "google.com/maps" || strIncludes w "maps.google.com")

end GMScrap

namespace GMScrap

theorem ws_not_digit (c : Char) (h : isJsWs c = true) : c.isDigit = false := by
  simp only [isJsWs, Bool.or_eq_true, decide_eq_true_eq] at h
  rcases h with ((h | h) | h) | h <;> subst h <;> decide

theorem filter_digit_dropWhile_ws (l : List Char) :
    (l.dropWhile isJsWs).filter Char.isDigit = l.filter Char.isDigit := by
  induction l with
  | nil => rfl
  | cons c t ih =>
    by_cases hc : isJsWs c = true
    · simp [List.dropWhile_cons, hc, List.filter_cons, ws_not_digit c hc, ih]
    · simp [List.dropWhile_cons, hc]

theorem digitCount_jsTrim (s : String) : digitCount (jsTrim s) = digitCount s := by
  show (trimChars s.data |>.filter Char.isDigit).length = (s.data.filter Char.isDigit).length
  unfold trimChars
  rw [List.filter_reverse, List.length_reverse, filter_digit_dropWhile_ws,
    List.filter_reverse, List.length_reverse, filter_digit_dropWhile_ws]

theorem strategy2Text_valid (t p : String) (h : strategy2Text t = some p) :
    7 ≤ digitCount p ∧ digitCount p ≤ 15 := by
  unfold strategy2Text at h
  split at h
  · exact absurd h (by simp)
  · split at h
    · split at h
      · cases h
        assumption
      · exact absurd h (by simp)
    · exact absurd h (by simp)

theorem strategy2Elem_valid (e : ContactElem) (p : String) (h : strategy2Elem e = some p) :
    7 ≤ digitCount p ∧ digitCount p ≤ 15 := by
  unfold strategy2Elem at h
  split at h
  · exact strategy2Text_valid _ p h
  · exact absurd h (by simp)

theorem phoneStrategy2_valid (l : List ContactElem) (p : String)
    (h : phoneStrategy2 l = some p) : 7 ≤ digitCount p ∧ digitCount p ≤ 15 := by
  induction l with
  | nil => simp [phoneStrategy2] at h
  | cons e rest ih =>
    unfold phoneStrategy2 at h
    split at h
    · rename_i q heq
      cases h
      exact strategy2Elem_valid e _ heq
    · exact ih h

theorem strategy3Elem_valid (href p : String) (h : strategy3Elem href = some p) :
    7 ≤ digitCount p ∧ digitCount p ≤ 15 := by
  unfold strategy3Elem at h
  split at h
  · exact absurd h (by simp)
  · split at h
    · rename_i hcond
      cases h
      exact ⟨hcond.2.1, hcond.2.2⟩
    · exact absurd h (by simp)

theorem phoneStrategy3_valid (l : List String) (p : String)
    (h : phoneStrategy3 l = some p) : 7 ≤ digitCount p ∧ digitCount p ≤ 15 := by
  induction l with
  | nil => simp [phoneStrategy3] at h
  | cons href rest ih =>
    unfold phoneStrategy3 at h
    split at h
    · rename_i q heq
      cases h
      exact strategy3Elem_valid href _ heq
    · exact ih h

theorem strategy4Find_valid (ms : List String) (v : String) (h : strategy4Find ms = some v) :
    7 ≤ digitCount v ∧ digitCount v ≤ 15 := by
  have := List.find?_some h
  simp only [Bool.and_eq_true, decide_eq_true_eq] at this
  exact this

theorem phoneStrategy4_valid (ms1 ms2 : List String) (p : String)
    (h : phoneStrategy4 ms1 ms2 = some p) : 7 ≤ digitCount p ∧ digitCount p ≤ 15 := by
  unfold phoneStrategy4 at h
  split at h
  · rename_i v heq
    cases h
    rw [digitCount_jsTrim]
    exact strategy4Find_valid ms1 v heq
  · split at h
    · rename_i v heq
      cases h
      rw [digitCount_jsTrim]
      exact strategy4Find_valid ms2 v heq
    · exact absurd h (by simp)

/-- Claim C1, counterexample: the claim is false as stated.  The
summary-card extraction (scraper.js line 480) applies no digit-count
validation: an aria-label of "Phone: 12" yields the phone "12" with
digit-only length 2.  Detail strategy 1 (detailExtractor lines 527 to
547) is also unvalidated: a Phone control resolving to "1((((((" yields
that very string with digit-only length 1.  Both lie outside 7 to 15. -/
theorem phone_pipeline_unvalidated_counterexample :
    extractSummaryPhone (some "Phone: 12") = some "12" ∧
    ¬(7 ≤ digitCount "12" ∧ digitCount "12" ≤ 15) ∧
    phoneStrategy1 (some "1((((((") = some "1((((((" ∧
    ¬(7 ≤ digitCount "1((((((" ∧ digitCount "1((((((" ≤ 15) := by
  refine ⟨by decide, by decide, by decide, by decide⟩

/-- Claim C1, amended: every phone produced by detail strategies 2, 3
or 4 has digit-only length between 7 and 15 inclusive; the summary-card
extraction and detail strategy 1 enforce only their character patterns
and no digit count. -/
theorem phone_strategies234_digit_bounds
    (elems : List ContactElem) (tels ms1 ms2 : List String) (p : String)
    (h : phoneStrategy2 elems = some p ∨ phoneStrategy3 tels = some p ∨
      phoneStrategy4 ms1 ms2 = some p) :
    7 ≤ digitCount p ∧ digitCount p ≤ 15 := by
  rcases h with h | h | h
  · exact phoneStrategy2_valid elems p h
  · exact phoneStrategy3_valid tels p h
  · exact phoneStrategy4_valid ms1 ms2 p h

/-- Witness for the amended claim C1 at a concrete tel link. -/
theorem phone_strategies234_digit_bounds_witness :
    7 ≤ digitCount "1234567" ∧ digitCount "1234567" ≤ 15 :=
  phone_strategies234_digit_bounds [] ["tel:1234567"] [] [] "1234567"
    (Or.inr (Or.inl (by decide)))

end GMScrap

namespace GMScrap

/-- Claim C2, counterexample: the claim is false as stated.  With a sink
callback that always throws, the first record already aborts the run:
the per-record catch absorbs the first throw, but its own unprotected
callback invocation throws again and unwinds the loop, so the second
record is never processed and no result list is returned (the scrape
rejects, carrying only the two pushes of the first record). -/
theorem sink_throw_aborts_loop_counterexample :
    runSinkLoop (extractBusinessDetails navFailEnv) (fun _ => true)
      [mkBiz "A", mkBiz "B"] = Except.error [mkBiz "A", mkBiz "A"] := rfl

/-- Claim C2, amended: an exception thrown by the sink callback on the
try-path invocation of one record is caught by the per-record catch, the
original record is appended and the callback is invoked again with it;
provided no catch-path invocation throws, the loop processes every
record and returns the full accumulated list.  Only a callback that also
throws inside the catch path unwinds the loop. -/
theorem sink_single_throw_absorbed (enrichF : Business → Business)
    (cb : Business → Bool) (bs : List Business)
    (h : ∀ b ∈ bs, cb (enrichF b) = true → cb b = false) :
    runSinkLoop enrichF cb bs = Except.ok (sinkExpected enrichF cb bs) := by
  induction bs with
  | nil => rfl
  | cons b rest ih =>
    have hrest : ∀ x ∈ rest, cb (enrichF x) = true → cb x = false :=
      fun x hx => h x (List.mem_cons_of_mem b hx)
    unfold runSinkLoop sinkExpected
    by_cases h1 : cb (enrichF b) = true
    · have h2 : cb b = false := h b (List.mem_cons_self b rest) h1
      rw [if_pos h1, if_neg (by rw [h2]; exact Bool.false_ne_true), ih hrest]
      simp [h1]
    · rw [if_neg h1, ih hrest]
      simp [h1]

/-- Witness for the amended claim C2: a callback that never throws lets
the loop return the full list. -/
theorem sink_single_throw_absorbed_witness :
    runSinkLoop (extractBusinessDetails navFailEnv) (fun _ => false)
      [mkBiz "A", mkBiz "B"] =
    Except.ok (sinkExpected (extractBusinessDetails navFailEnv) (fun _ => false)
      [mkBiz "A", mkBiz "B"]) :=
  sink_single_throw_absorbed _ _ _ (fun _ _ hcb => absurd hcb Bool.false_ne_true)

/-- Claim C3: fed a result count that stays at 5 on every check, the
scroll driver stops through the stability break with its iteration
counter scrollAttempts equal to 2, far from the 100-iteration cap: two
scroll iterations complete, and the third count check observes no growth
for the second consecutive time and breaks before any further scrolling. -/
theorem scroll_stable_five_terminates_after_two :
    scrollLoop (fun _ => 5) = ⟨2, 5, true⟩ := by
  simp [scrollLoop, scrollGo, maxScrollAttempts]

end GMScrap

namespace GMScrap

theorem scrollGo_attempts_le (counts : Nat → Nat) :
    ∀ (k i prev nc a : Nat), maxScrollAttempts - a ≤ k → a ≤ maxScrollAttempts →
      (scrollGo counts i prev nc a).attempts ≤ maxScrollAttempts := by
  intro k
  induction k with
  | zero =>
    intro i prev nc a hk ha
    have hca : ¬ a < maxScrollAttempts := by omega
    unfold scrollGo
    rw [dif_neg hca]
    exact ha
  | succ k ih =>
    intro i prev nc a hk ha
    unfold scrollGo
    by_cases hca : a < maxScrollAttempts
    · rw [dif_pos hca]
      dsimp only
      split
      · split
        · exact le_of_lt hca
        · exact ih (i + 1) (counts i) (nc + 1) (a + 1) (by omega) (by omega)
      · exact ih (i + 1) (counts i) 0 (a + 1) (by omega) (by omega)
    · rw [dif_neg hca]
      exact ha

/-- Claim C9: whatever count sequence the page yields, the scroll loop
terminates (scrollLoop is a total function) and its iteration counter
never exceeds the hard cap of 100; when the cap is hit the loop exits
unconditionally. -/
theorem scroll_loop_capped_at_100 (counts : Nat → Nat) :
    (scrollLoop counts).attempts ≤ 100 :=
  scrollGo_attempts_le counts maxScrollAttempts 0 0 0 0 (Nat.sub_le _ _) (Nat.zero_le _)

/-- Claim C4: the enrichment function never raises (it is total, every
fault path of the source being caught and mapped to the input record),
and when navigation to placeUrl fails or times out it returns a record
equal to the input summary, with no enrichment fields added and no
partial mutation. -/
theorem enrich_nav_failure_returns_input (env : DetailEnv) (b : Business)
    (h : env.navFails = true) : extractBusinessDetails env b = b := by
  unfold extractBusinessDetails
  rw [h]
  simp

/-- Witness for claim C4 at a concrete record and failing navigation. -/
theorem enrich_nav_failure_returns_input_witness :
    extractBusinessDetails navFailEnv
      { mkBiz "NavFail" with placeUrl := some "https://www.google.com/maps/place/x" } =
    { mkBiz "NavFail" with placeUrl := some "https://www.google.com/maps/place/x" } :=
  enrich_nav_failure_returns_input navFailEnv _ rfl

/-- Claim C7: when the summary record has no placeUrl the enrichment
function is the identity, whatever the environment does. -/
theorem enrich_identity_without_placeUrl (env : DetailEnv) (b : Business)
    (h : b.placeUrl = none) : extractBusinessDetails env b = b := by
  unfold extractBusinessDetails
  rw [h]
  simp [jsTruthy]

/-- Witness for claim C7 at a concrete record without a placeUrl. -/
theorem enrich_identity_without_placeUrl_witness :
    extractBusinessDetails okEnv (mkBiz "NoUrl") = mkBiz "NoUrl" :=
  enrich_identity_without_placeUrl okEnv (mkBiz "NoUrl") rfl

/-- Claim C10: on every path of the enrichment function, success or
failure, the returned record keeps the name, rating, reviewCount,
placeId and placeUrl of the input; the merge only rewrites phone,
website, address, hours, category and description. -/
theorem enrich_preserves_identity_fields (env : DetailEnv) (b : Business) :
    (extractBusinessDetails env b).name = b.name ∧
    (extractBusinessDetails env b).rating = b.rating ∧
    (extractBusinessDetails env b).reviewCount = b.reviewCount ∧
    (extractBusinessDetails env b).placeId = b.placeId ∧
    (extractBusinessDetails env b).placeUrl = b.placeUrl := by
  unfold extractBusinessDetails
  repeat' split
  all_goals exact ⟨rfl, rfl, rfl, rfl, rfl⟩

theorem websiteFinalGuard_ok (o : Option String) (w : String)
    (h : websiteFinalGuard o = some w) : websiteOk w = true := by
  cases o with
  | none => simp [websiteFinalGuard] at h
  | some v =>
    by_cases hc : (strIncludes v "google.com/maps" || strIncludes v "maps.google.com") = true
    · have hnone : websiteFinalGuard (some v) = none := by simp [websiteFinalGuard, hc]
      rw [hnone] at h
      exact absurd h (by simp)
    · have hsome : websiteFinalGuard (some v) = some v := by simp [websiteFinalGuard, hc]
      rw [hsome] at h
      cases h
      simp [websiteOk, Bool.eq_false_iff.mpr hc]

/-- Claim C5: the summary-card extraction never outputs a website
containing either spelling of the map host, and the enrichment function
preserves that invariant: applied to any record whose website already
satisfies it (as every summary-extraction output does), the returned
record satisfies it too, the merge path nulling any self-referential
selection through its final guard. -/
theorem website_never_map_host :
    (∀ (href : Option String) (w : String),
        extractSummaryWebsite href = some w → websiteOk w = true) ∧
    (∀ (env : DetailEnv) (b : Business),
        (∀ w, b.website = some w → websiteOk w = true) →
        ∀ w, (extractBusinessDetails env b).website = some w → websiteOk w = true) := by
  constructor
  · intro href w h
    cases href with
    | none => simp [extractSummaryWebsite] at h
    | some s =>
      by_cases h0 : (s == "") = true
      · have hnone : extractSummaryWebsite (some s) = none := by
          simp [extractSummaryWebsite, h0]
        rw [hnone] at h
        exact absurd h (by simp)
      · by_cases hc : (strIncludes s "google.com/maps" || strIncludes s "maps.google.com") = true
        · have hnone : extractSummaryWebsite (some s) = none := by
            simp [extractSummaryWebsite, h0, hc]
          rw [hnone] at h
          exact absurd h (by simp)
        · have hsome : extractSummaryWebsite (some s) = some s := by
            simp [extractSummaryWebsite, h0, hc]
          rw [hsome] at h
          cases h
          simp [websiteOk, Bool.eq_false_iff.mpr hc]
  · intro env b hb w h
    unfold extractBusinessDetails at h
    split at h
    · split at h
      · exact hb w h
      · split at h
        · exact hb w h
        · exact websiteFinalGuard_ok _ w h
    · exact hb w h

/-- Witness for claim C5 at a concrete external link. -/
theorem website_never_map_host_witness : websiteOk "http://example.com" = true :=
  website_never_map_host.1 (some "http://example.com") "http://example.com" (by decide)

/-- Claim C6, counterexample: the claim is false as stated.  Within one
session (one SessionConfig, chosen once), two page loads drawing
different per-document randoms observe different timezone components:
offset 300 (America/New_York) on one load and offset 0 (Europe/London)
on another, because the new-document script redraws the timezone on
every run. -/
theorem timezone_changes_between_loads_counterexample :
    (newDocumentIdentity (setupSession 0 0) 0).timezoneOffset = 300 ∧
    (newDocumentIdentity (setupSession 0 0) 3).timezoneOffset = 0 ∧
    (newDocumentIdentity (setupSession 0 0) 0).timezone ≠
      (newDocumentIdentity (setupSession 0 0) 3).timezone := by
  refine ⟨by decide, by decide, by decide⟩

/-- Claim C6, amended: the user agent and viewport of the session
fingerprint are chosen once per scrape session and never change between
page loads (the derived platform included); only the timezone choice is
redrawn at random on every new document and may differ between loads. -/
theorem session_ua_viewport_immutable (cfg : SessionConfig) (r r' : Nat) :
    (newDocumentIdentity cfg r).userAgent = (newDocumentIdentity cfg r').userAgent ∧
    (newDocumentIdentity cfg r).platform = (newDocumentIdentity cfg r').platform ∧
    (newDocumentIdentity cfg r).viewport = (newDocumentIdentity cfg r').viewport :=
  ⟨rfl, rfl, rfl⟩

theorem dedupGo_countP_of_mem (n : String) :
    ∀ (l : List Business) (seen : List String), n ∈ seen →
      (dedupGo l seen).countP (fun b => b.name == n) = 0 := by
  intro l
  induction l with
  | nil => intro seen _; rfl
  | cons b rest ih =>
    intro seen hn
    unfold dedupGo
    by_cases hb : b.name ∈ seen
    · rw [if_pos hb]
      exact ih seen hn
    · rw [if_neg hb, List.countP_cons]
      have hbn : (b.name == n) = false := by
        have hne : b.name ≠ n := fun e => hb (e ▸ hn)
        simp [hne]
      simp [hbn, ih (b.name :: seen) (List.mem_cons_of_mem _ hn)]

theorem exists_name_cons_iff (b : Business) (rest : List Business) (n : String)
    (hbn : b.name ≠ n) :
    (∃ x ∈ b :: rest, x.name = n) ↔ (∃ x ∈ rest, x.name = n) := by
  constructor
  · rintro ⟨x, hx, hxn⟩
    rcases List.mem_cons.mp hx with rfl | hx2
    · exact absurd hxn hbn
    · exact ⟨x, hx2, hxn⟩
  · rintro ⟨x, hx, hxn⟩
    exact ⟨x, List.mem_cons_of_mem _ hx, hxn⟩

theorem dedupGo_countP_of_not_mem (n : String) :
    ∀ (l : List Business) (seen : List String), n ∉ seen →
      (dedupGo l seen).countP (fun b => b.name == n) =
        if ∃ b ∈ l, b.name = n then 1 else 0 := by
  intro l
  induction l with
  | nil => intro seen _; simp [dedupGo]
  | cons b rest ih =>
    intro seen hn
    unfold dedupGo
    by_cases hb : b.name ∈ seen
    · rw [if_pos hb]
      have hbn : b.name ≠ n := fun e => hn (e ▸ hb)
      rw [ih seen hn, if_congr (exists_name_cons_iff b rest n hbn) rfl rfl]
    · rw [if_neg hb, List.countP_cons]
      by_cases hbn : b.name = n
      · have hbeq : (b.name == n) = true := by simp [hbn]
        have hmem : n ∈ b.name :: seen := by
          rw [hbn]
          exact List.mem_cons_self _ _
        have hex : ∃ x ∈ b :: rest, x.name = n := ⟨b, List.mem_cons_self _ _, hbn⟩
        rw [hbeq, dedupGo_countP_of_mem n rest (b.name :: seen) hmem, if_pos hex]
        simp
      · have hbeq : (b.name == n) = false := by simp [hbn]
        have hn2 : n ∉ b.name :: seen := by
          intro hmem
          rcases List.mem_cons.mp hmem with e | e
          · exact hbn e.symm
          · exact hn e
        rw [hbeq, ih (b.name :: seen) hn2,
          if_congr (exists_name_cons_iff b rest n hbn) rfl rfl]
        simp

/-- Claim C8: the deduplication pass suppresses duplicates by exact,
case-sensitive name equality only: whenever some record of the input
list carries the name n, the deduplicated output contains exactly one
record with that name. -/
theorem dedup_unique_by_name (l : List Business) (n : String)
    (h : ∃ b ∈ l, b.name = n) :
    (dedupByName l).countP (fun b => b.name == n) = 1 := by
  unfold dedupByName
  rw [dedupGo_countP_of_not_mem n l [] (by simp), if_pos h]

/-- Witness for claim C8: two records named Cafe and one named cafe
(differing only in case) leave exactly one record named Cafe. -/
theorem dedup_unique_by_name_witness :
    (dedupByName [mkBiz "Cafe", mkBiz "Cafe", mkBiz "cafe"]).countP
      (fun b => b.name == "Cafe") = 1 :=
  dedup_unique_by_name [mkBiz "Cafe", mkBiz "Cafe", mkBiz "cafe"] "Cafe" (by decide)

end GMScrap
